/-
  Verification of the Neovance neonatal monitoring core.

  Shallow embedding of:
  - the rule-based EOS risk calculator (src/backend/pathway_eos_simulator.py),
  - the rolling-statistics deviation risk scorer (src/etl.py),
  - the clinical-state vitals generator (src/scripts/realistic_vitals_generator.py),
  - the alert lifecycle operations of the HIL backend (src/backend/main.py).

  Python floats are embedded as exact rationals (and as reals where a square
  root is taken); machine-float rounding is not modelled.  Python round(x, 2)
  is embedded as round-half-up at two decimals.
-/
import Mathlib

namespace Neovance

/-- Embedding of Python round(x, 2): round to two decimal places. -/
def round2 {α : Type} [LinearOrderedField α] [FloorRing α] (x : α) : α :=
  ((round (x * 100) : ℤ) : α) / 100

lemma round_le_round_of_le {α : Type} [LinearOrderedField α] [FloorRing α]
    {x y : α} (h : x ≤ y) : round x ≤ round y := by
  rw [round_eq, round_eq]
  exact Int.floor_mono (by linarith)

lemma round2_mono {α : Type} [LinearOrderedField α] [FloorRing α]
    {x y : α} (h : x ≤ y) : round2 x ≤ round2 y := by
  unfold round2
  have h1 : round (x * 100) ≤ round (y * 100) :=
    round_le_round_of_le (by linarith)
  have h2 : ((round (x * 100) : ℤ) : α) ≤ ((round (y * 100) : ℤ) : α) := by
    exact_mod_cast h1
  linarith

lemma round2_intCast {α : Type} [LinearOrderedField α] [FloorRing α]
    (n : ℤ) : round2 ((n : α)) = (n : α) := by
  unfold round2
  have : ((n : α)) * 100 = ((n * 100 : ℤ) : α) := by push_cast; ring
  rw [this, round_intCast]
  push_cast
  field_simp

/-! ## RuleRiskScorer: the Puopolo/Kaiser EOS calculator
    (src/backend/pathway_eos_simulator.py, calculate_eos_risk and
    categorize_eos_status). -/

/-- Embedding of Python str.lower() for the ASCII strings compared by the
EOS calculator (character-wise lower-casing). -/
def pyLower (s : String) : String := String.mk (s.data.map Char.toLower)

/-- Risk-factor list built by calculate_eos_risk (lines 27-54): one
multiplicative factor appended per present risk condition, in source order. -/
def eos_risk_factors (ga_weeks ga_days : ℤ) (temp_celsius rom_hours : ℚ)
    (gbs_status antibiotic_type clinical_exam : String) : List ℚ :=
  let ga_decimal : ℚ := (ga_weeks : ℚ) + (ga_days : ℚ) / 7
  (if ga_decimal < 37 then [2] else if ga_decimal < 39 then [1] else [])
    ++ (if temp_celsius ≥ 38 then [3] else [])
    ++ (if rom_hours > 18 then [2] else [])
    ++ (if pyLower gbs_status = "positive" then
          (if pyLower antibiotic_type ∈ (["penicillin", "ampicillin"] : List String)
           then [1] else [4])
        else if pyLower gbs_status = "unknown" then [3/2] else [])
    ++ (if pyLower clinical_exam = "abnormal" then [15] else [])

/-- Embedding of calculate_eos_risk: baseline 0.5, multiplied by every
present risk factor, capped at 50, rounded to 2 decimals. -/
def calculate_eos_risk (ga_weeks ga_days : ℤ) (temp_celsius rom_hours : ℚ)
    (gbs_status antibiotic_type clinical_exam : String) : ℚ :=
  let baseline_risk : ℚ := 1/2
  let total_risk :=
    (eos_risk_factors ga_weeks ga_days temp_celsius rom_hours
      gbs_status antibiotic_type clinical_exam).foldl (· * ·) baseline_risk
  round2 (min total_risk 50)

/-- Embedding of categorize_eos_status: abnormal exam overrides the score;
otherwise fixed breakpoints at 3.0 and 1.0. -/
def categorize_eos_status (risk_score : ℚ) (clinical_exam : String) : String :=
  if pyLower clinical_exam = "abnormal" then "HIGH_RISK"
  else if risk_score ≥ 3 then "HIGH_RISK"
  else if risk_score ≥ 1 then "ENHANCED_MONITORING"
  else "ROUTINE_CARE"

lemma eos_risk_factors_one_le (ga_weeks ga_days : ℤ) (temp_celsius rom_hours : ℚ)
    (gbs_status antibiotic_type clinical_exam : String) :
    ∀ x ∈ eos_risk_factors ga_weeks ga_days temp_celsius rom_hours
        gbs_status antibiotic_type clinical_exam, (1 : ℚ) ≤ x := by
  intro x hx
  unfold eos_risk_factors at hx
  simp only [List.mem_append] at hx
  rcases hx with ((((h | h) | h) | h) | h) <;>
    (split at h <;> simp_all <;> try norm_num) <;>
    (try (split at h <;> simp_all <;> norm_num))

lemma foldl_mul_le_of_one_le {l : List ℚ} (hl : ∀ x ∈ l, (1 : ℚ) ≤ x)
    {s : ℚ} (hs : 0 ≤ s) : s ≤ l.foldl (· * ·) s := by
  induction l generalizing s with
  | nil => simp
  | cons a t ih =>
    have ha : (1 : ℚ) ≤ a := hl a (by simp)
    have hsa : s ≤ s * a := le_mul_of_one_le_right hs ha
    calc s ≤ s * a := hsa
      _ ≤ t.foldl (· * ·) (s * a) :=
          ih (fun x hx => hl x (by simp [hx]))
            (mul_nonneg hs (le_trans zero_le_one ha))

/-! ## RollingStatistics and DeviationRiskScorer (src/etl.py)

    get_live_statistics queries the last-60-minutes rows of the risk_monitor
    table for one patient and derives per-channel standard deviations with
    numpy; calculate_risk_score combines them with the RISK_PARAMS table.
    The window of rows is embedded as an explicit list of measurement
    vectors; each row is one (hr, spo2, rr, temp, map) record. -/

/-- The five measured channels of the RISK_PARAMS table in src/etl.py. -/
inductive Channel : Type
  | hr
  | spo2
  | rr
  | temp
  | map
deriving DecidableEq

/-- Ideal baseline mu per channel (RISK_PARAMS). -/
def riskMu : Channel → ℚ
  | .hr => 145
  | .spo2 => 95
  | .rr => 50
  | .temp => 37
  | .map => 35

/-- Importance weight per channel (RISK_PARAMS). -/
def riskWeight : Channel → ℚ
  | .hr => 1
  | .spo2 => 3
  | .rr => 3/2
  | .temp => 1
  | .map => 2

/-- Sensitivity exponent per channel (RISK_PARAMS). -/
def riskPower : Channel → ℕ
  | .hr => 2
  | .spo2 => 4
  | .rr => 2
  | .temp => 3
  | .map => 2

/-- Default standard deviation per channel, returned when the window has
fewer than 2 samples or the computed standard deviation is zero. -/
def defaultSD : Channel → ℚ
  | .hr => 15
  | .spo2 => 5/2
  | .rr => 10
  | .temp => 1/2
  | .map => 5

/-- One row of the rolling window: a measurement vector over the channels. -/
def Row : Type := Channel → ℚ

/-- Values of one channel across the window rows. -/
def column (c : Channel) (rows : List Row) : List ℚ :=
  rows.map (fun r => r c)

/-- Mean as computed by numpy (sum divided by length). -/
def npMean (xs : List ℚ) : ℚ := xs.sum / xs.length

/-- Population variance as computed by np.std (ddof = 0: divide by N). -/
def npVariance (xs : List ℚ) : ℚ :=
  ((xs.map (fun x => (x - npMean xs) ^ 2)).sum) / xs.length

/-- Value of np.std(xs): the square root of the population variance. -/
noncomputable def npStd (xs : List ℚ) : ℝ := Real.sqrt (npVariance xs)

/-- Modelled from the spec: the sample variance (Bessel, divide by N-1),
the quantity the spec's phrase "sample standard deviation" denotes. -/
def sampleVariance (xs : List ℚ) : ℚ :=
  ((xs.map (fun x => (x - npMean xs) ^ 2)).sum) / ((xs.length : ℚ) - 1)

/-- Modelled from the spec: the sample standard deviation of the window. -/
noncomputable def sampleStddev (xs : List ℚ) : ℝ := Real.sqrt (sampleVariance xs)

/-- Embedding of get_live_statistics for one patient: fewer than 2 rows
returns the default table; otherwise per channel the value of
float(np.std(column)) or default, where the or-fallback fires exactly when
np.std(column) == 0.0, i.e. when the population variance is zero. -/
noncomputable def get_live_statistics (rows : List Row) : Channel → ℝ :=
  fun c =>
    if rows.length < 2 then (defaultSD c : ℝ)
    else if npVariance (column c rows) = 0 then (defaultSD c : ℝ)
    else npStd (column c rows)

/-- Sum of a per-channel quantity in the iteration order of the vitals
dict of calculate_risk_score. -/
def channelTotal (f : Channel → ℝ) : ℝ :=
  f .hr + f .spo2 + f .rr + f .temp + f .map

/-- Embedding of calculate_risk_score: weighted powered normalized
deviations over the five channels, rounded to 2 decimals.  The sigma values
come from get_live_statistics on the current window. -/
noncomputable def calculate_risk_score (rows : List Row) (v : Row) : ℝ :=
  let live_sd := get_live_statistics rows
  round2 (channelTotal fun c =>
    (riskWeight c : ℝ) * (|(v c : ℝ) - (riskMu c : ℝ)| / live_sd c) ^ riskPower c)

/-- Embedding of the status lambda of run_pipeline (src/etl.py line 307). -/
noncomputable def riskStatus (risk : ℝ) : String :=
  if risk > 20 then "CRITICAL" else if risk > 10 then "WARNING" else "OK"

instance : Fintype Channel where
  elems := ⟨[Channel.hr, Channel.spo2, Channel.rr, Channel.temp, Channel.map], by decide⟩
  complete := fun c => by cases c <;> decide

/-- Modelled from the spec: the formula of section 4.2,
risk = Sigma_channel W_channel (|value - mu| / sigma)^P_channel, rounded
to two decimals, with sigma supplied per channel. -/
noncomputable def spec_deviation_risk (sigma : Channel → ℝ) (v : Row) : ℝ :=
  round2 (∑ c : Channel,
    (riskWeight c : ℝ) * (|(v c : ℝ) - (riskMu c : ℝ)| / sigma c) ^ riskPower c)

lemma channelTotal_eq_sum (f : Channel → ℝ) :
    (∑ c : Channel, f c) = channelTotal f := by
  show (List.map f [Channel.hr, .spo2, .rr, .temp, .map]).sum = _
  simp [channelTotal]
  ring

lemma npVariance_nonneg (xs : List ℚ) : 0 ≤ npVariance xs := by
  unfold npVariance
  apply div_nonneg
  · apply List.sum_nonneg
    intro x hx
    simp only [List.mem_map] at hx
    obtain ⟨y, _, rfl⟩ := hx
    positivity
  · positivity

lemma get_live_statistics_pos (rows : List Row) (c : Channel) :
    0 < get_live_statistics rows c := by
  have hd : (0 : ℝ) < (defaultSD c : ℝ) := by
    cases c <;> norm_num [defaultSD]
  unfold get_live_statistics
  split
  · exact hd
  · split
    · exact hd
    · rename_i hne
      unfold npStd
      have hnn := npVariance_nonneg (column c rows)
      have hpos : (0 : ℚ) < npVariance (column c rows) := lt_of_le_of_ne hnn (Ne.symm hne)
      apply Real.sqrt_pos.mpr
      exact_mod_cast hpos

/-! ## ClinicalStateSimulator (src/scripts/realistic_vitals_generator.py)

    The sepsis-progression targets of _apply_sepsis_progression.  The call
    np.random.choice([fever, hypothermia]) inside that function draws a
    fresh 50/50 choice on every invocation, i.e. on every tick of a
    deteriorating or septic episode; the draw is embedded as an explicit
    boolean parameter supplied anew per tick.  The generator's per-entity
    state (state, sepsis_onset_time, time_since_onset, current_vitals)
    stores no such choice. -/

/-- Clinical state enum of the generator. -/
inductive SimState : Type
  | stable
  | deteriorating
  | septic
  | recovering
deriving DecidableEq

/-- Normal vital ranges by gestational age (dataclass VitalRanges). -/
structure VitalRanges : Type where
  hr_min : ℚ
  hr_max : ℚ
  spo2_min : ℚ
  spo2_max : ℚ
  rr_min : ℚ
  rr_max : ℚ
  temp_min : ℚ
  temp_max : ℚ
  map_min : ℚ
  map_max : ℚ

/-- Ranges for a term infant (ga_weeks >= 37 branch of _get_vital_ranges). -/
def termRanges : VitalRanges :=
  { hr_min := 110, hr_max := 160, spo2_min := 95, spo2_max := 100,
    rr_min := 30, rr_max := 60, temp_min := 73/2, temp_max := 75/2,
    map_min := 35, map_max := 50 }

/-- Piecewise progression fraction of _apply_sepsis_progression
(phases at 5, 15 and 30 minutes since onset, capped at 1). -/
def progression (minutes_since_onset : ℚ) : ℚ :=
  if minutes_since_onset < 5 then minutes_since_onset / 5 * (1/5)
  else if minutes_since_onset < 15 then 1/5 + (minutes_since_onset - 5) / 10 * (2/5)
  else if minutes_since_onset < 30 then 3/5 + (minutes_since_onset - 15) / 15 * (3/10)
  else min (9/10 + (minutes_since_onset - 30) / 30 * (1/10)) 1

/-- Embedding of _apply_sepsis_progression.  The argument tempCoin is the
np.random.choice draw of this call: true selects the fever target, false
the hypothermia target (a fresh 50/50 draw on every call). -/
def applySepsisProgression (r : VitalRanges) (minutes_since_onset : ℚ)
    (tempCoin : Bool) : Row :=
  let p := progression minutes_since_onset
  fun c => match c with
    | .hr => r.hr_max + 20 + p * 40
    | .spo2 => max (r.spo2_min - 10 - p * 15) 75
    | .rr => r.rr_max + 10 + p * 30
    | .temp => if tempCoin then r.temp_max + 3/2 + p else r.temp_min - 1 - p
    | .map => max (r.map_min - 5 - p * 15) 15

/-- Target selection of generate_next_vitals: in DETERIORATING or SEPTIC the
targets come from _apply_sepsis_progression with this tick's fresh draws; in
STABLE they are fresh uniform draws (stableDraws); in RECOVERING fixed
points toward baseline. -/
def tickTargets (st : SimState) (r : VitalRanges) (minutes_since_onset : ℚ)
    (stableDraws : Row) (tempCoin : Bool) : Row :=
  match st with
  | .stable => stableDraws
  | .deteriorating => applySepsisProgression r minutes_since_onset tempCoin
  | .septic => applySepsisProgression r minutes_since_onset tempCoin
  | .recovering => fun c => match c with
      | .hr => r.hr_min + 20
      | .spo2 => r.spo2_max - 2
      | .rr => r.rr_min + 10
      | .temp => (r.temp_min + r.temp_max) / 2
      | .map => (r.map_min + r.map_max) / 2

lemma progression_nonneg {m : ℚ} (hm : 0 ≤ m) : 0 ≤ progression m := by
  unfold progression
  split
  · positivity
  · split
    · rename_i h1 h2
      push_neg at h1
      nlinarith
    · split
      · rename_i h1 h2 h3
        push_neg at h1 h2
        nlinarith
      · rename_i h1 h2 h3
        push_neg at h1 h2 h3
        have : (9/10 : ℚ) + (m - 30) / 30 * (1/10) ≥ 9/10 := by nlinarith
        have h50 : (0:ℚ) < 1 := by norm_num
        rcases le_total ((9:ℚ)/10 + (m - 30) / 30 * (1/10)) 1 with h | h
        · rw [min_eq_left h]; linarith
        · rw [min_eq_right h]; norm_num

/-! ## AlertManager: the alert lifecycle of the HIL backend
    (src/backend/main.py)

    The alerts table is embedded as a list of Alert records; simulated
    time is a rational number of hours (timedelta(hours=h) becomes + h).
    The operations embedded are:
    - the per-entity sepsis-alerting step of _background_simulation_loop
      (lines 745-777), here evaluateTick;
    - predict_sepsis (lines 2497-2561), threshold-triggered creation;
    - log_doctor_action (lines 2564-2606), recordAction;
    - log_outcome (lines 2609-2641), recordOutcome.
    The HTTPException raised for an unknown id (404) and for an invalid
    transition (400) are embedded as the two HilError values; SQLAlchemy
    rollback on error means an erroring operation leaves the table
    unchanged, which the Except result type makes structural. -/

/-- Alert lifecycle statuses (comment at src/backend/main.py line 77). -/
inductive AlertStatus : Type
  | pendingDoctorAction
  | actionTaken
  | dismissed
  | closed
deriving DecidableEq

/-- One row of the alerts table (class Alert, src/backend/main.py 66-95).
The free-text decision fields (observation_duration, lab_tests,
antibiotics) are omitted; they never influence control flow. -/
structure Alert : Type where
  alert_id : ℕ
  baby_id : String
  timestamp : ℚ
  model_risk_score : ℚ
  onset_window_hrs : ℤ
  alert_status : AlertStatus
  doctor_id : Option String := none
  doctor_action : Option String := none
  action_detail : Option String := none
  action_timestamp : Option ℚ := none
  dismiss_duration : Option ℚ := none
  sepsis_confirmed : Option Bool := none
  outcome_timestamp : Option ℚ := none
  reward_signal : Option ℤ := none
  model_status : Option String := none
deriving DecidableEq

/-- Embedding of risk_to_hours (src/backend/main.py lines 47-56). -/
def risk_to_hours (risk_score : ℚ) : ℤ :=
  if risk_score < 3/10 then 48
  else if risk_score < 6/10 then 24
  else if risk_score < 8/10 then 12
  else 6

/-- Typed errors of the HIL endpoints: HTTP 404 (alert not found) and
HTTP 400 (action cannot be taken on this alert). -/
inductive HilError : Type
  | alertNotFound
  | invalidTransition
deriving DecidableEq

/-- Python truthiness of the optional dismiss_duration field:
None and 0 are falsy. -/
def truthy : Option ℚ → Bool
  | none => false
  | some d => d ≠ 0

/-- Embedding of existing_alert.dismiss_duration or 1: the default silence
window of one hour when the field is falsy. -/
def silenceHours : Option ℚ → ℚ
  | none => 1
  | some d => if d = 0 then 1 else d

/-- Alerts of one entity in a non-CLOSED status: the filter
Alert.alert_status.in_(PENDING_DOCTOR_ACTION, ACTION_TAKEN, DISMISSED). -/
def openAlerts (mrn : String) (alerts : List Alert) : List Alert :=
  alerts.filter fun a =>
    a.baby_id = mrn ∧ a.alert_status ≠ AlertStatus.closed

/-- Most recent element by timestamp: order_by(desc(Alert.timestamp)).first().
On equal timestamps the earlier row is kept (the database order on ties is
unspecified; no theorem below depends on a tie). -/
def mostRecent (l : List Alert) : Option Alert :=
  l.foldl (fun acc a =>
    match acc with
    | none => some a
    | some b => if b.timestamp < a.timestamp then some a else some b) none

/-- Fresh primary key for an inserted row: alerts are never deleted, so the
table length is a fresh autoincrement id. -/
def freshId (alerts : List Alert) : ℕ := alerts.length

/-- The new PENDING alert row inserted by the simulation loop
(lines 770-777): risk snapshot severity/10 and onset window derived
from it. -/
def newTickAlert (alerts : List Alert) (now severity : ℚ) (mrn : String) : Alert :=
  { alert_id := freshId alerts
    baby_id := mrn
    timestamp := now
    model_risk_score := severity / 10
    onset_window_hrs := risk_to_hours (severity / 10)
    alert_status := AlertStatus.pendingDoctorAction }

/-- Embedding of the per-entity sepsis-alerting step of
_background_simulation_loop (src/backend/main.py lines 745-777): when the
severity is at least 7.5 the most recent non-CLOSED alert decides whether a
new PENDING row is inserted.  A DISMISSED or ACTION_TAKEN alert without an
action_timestamp would raise a TypeError in Python, which the loop's
except-handler catches before the commit, so nothing changes. -/
def evaluateTick (now severity : ℚ) (mrn : String) (alerts : List Alert) :
    List Alert :=
  if severity < 15/2 then alerts
  else
    match mostRecent (openAlerts mrn alerts) with
    | none => alerts ++ [newTickAlert alerts now severity mrn]
    | some a =>
      match a.alert_status with
      | AlertStatus.dismissed =>
        match a.action_timestamp with
        | none => alerts
        | some t =>
          if now > t + silenceHours a.dismiss_duration then
            alerts ++ [newTickAlert alerts now severity mrn]
          else alerts
      | AlertStatus.actionTaken =>
        match a.action_timestamp with
        | none => alerts
        | some t =>
          if now > t + 4 then alerts ++ [newTickAlert alerts now severity mrn]
          else alerts
      | _ => alerts

/-- Embedding of predict_sepsis (src/backend/main.py lines 2497-2561): the
classifier probability is an opaque input; a risk score above 0.75 inserts
a new PENDING alert with no lookup of existing alerts.  Returns the new
table and the alert_id reported to the caller. -/
def predict_sepsis (risk_score : ℚ) (mrn : String) (alerts : List Alert) :
    List Alert × Option ℕ :=
  if risk_score > 3/4 then
    (alerts ++ [{ alert_id := freshId alerts
                  baby_id := mrn
                  timestamp := 0
                  model_risk_score := risk_score
                  onset_window_hrs := risk_to_hours risk_score
                  alert_status := AlertStatus.pendingDoctorAction }],
     some (freshId alerts))
  else (alerts, none)

/-- Lookup by primary key: query(Alert).filter(alert_id == id).first(). -/
def findAlert (id : ℕ) (alerts : List Alert) : Option Alert :=
  alerts.find? fun a => a.alert_id = id

/-- Replacement of the row with the given id (the ORM mutates the fetched
row in place and commits). -/
def updateAlert (id : ℕ) (f : Alert → Alert) (alerts : List Alert) :
    List Alert :=
  alerts.map fun a => if a.alert_id = id then f a else a

/-- Embedding of log_doctor_action (src/backend/main.py lines 2564-2606):
404 when the id is unknown, 400 unless the status is PENDING_DOCTOR_ACTION
or ACTION_TAKEN; otherwise records the doctor fields and moves to DISMISSED
when a truthy dismiss_duration is supplied, else to ACTION_TAKEN. -/
def log_doctor_action (now : ℚ) (id : ℕ) (doctor_id action_type : String)
    (action_detail : Option String) (dismiss_duration : Option ℚ)
    (alerts : List Alert) : Except HilError (List Alert) :=
  match findAlert id alerts with
  | none => Except.error HilError.alertNotFound
  | some a =>
    if a.alert_status = AlertStatus.pendingDoctorAction ∨
       a.alert_status = AlertStatus.actionTaken then
      Except.ok (updateAlert id (fun b =>
        { b with
          doctor_id := some doctor_id
          doctor_action := some action_type
          action_detail := action_detail
          dismiss_duration :=
            if truthy dismiss_duration then dismiss_duration else b.dismiss_duration
          alert_status :=
            if truthy dismiss_duration then AlertStatus.dismissed
            else AlertStatus.actionTaken
          action_timestamp := some now }) alerts)
    else Except.error HilError.invalidTransition

/-- Embedding of log_outcome (src/backend/main.py lines 2609-2641): 404 when
the id is unknown; otherwise unconditionally records the outcome, computes
the reward signal from agreement with model_risk_score > 0.75, and sets the
status to CLOSED.  No check that the alert is not already CLOSED exists. -/
def log_outcome (now : ℚ) (id : ℕ) (final_outcome : Bool)
    (alerts : List Alert) : Except HilError (List Alert) :=
  match findAlert id alerts with
  | none => Except.error HilError.alertNotFound
  | some _ =>
    Except.ok (updateAlert id (fun b =>
      let predicted_high := b.model_risk_score > 3/4
      { b with
        sepsis_confirmed := some final_outcome
        outcome_timestamp := some now
        alert_status := AlertStatus.closed
        reward_signal := some (if predicted_high = final_outcome then 1 else -1)
        model_status :=
          some (if predicted_high = final_outcome then "SUCCESS" else "FAILURE") }) alerts)

/-! ## Theorems -/

/-- C7: for every input tuple the rule-based EOS risk score lies in
[0.5, 50], and an abnormal clinical exam makes categorization return
HIGH_RISK regardless of the numeric score. -/
theorem eos_risk_bounded_and_abnormal_overrides :
    ∀ (gw gd : ℤ) (t r : ℚ) (gbs abx exam : String),
      ((1/2 : ℚ) ≤ calculate_eos_risk gw gd t r gbs abx exam ∧
        calculate_eos_risk gw gd t r gbs abx exam ≤ 50) ∧
      (∀ s : ℚ, pyLower exam = "abnormal" →
        categorize_eos_status s exam = "HIGH_RISK") := by
  intro gw gd t r gbs abx exam
  constructor
  · have hall := eos_risk_factors_one_le gw gd t r gbs abx exam
    have h1 : (1/2 : ℚ) ≤
        (eos_risk_factors gw gd t r gbs abx exam).foldl (· * ·) (1/2) :=
      foldl_mul_le_of_one_le hall (by norm_num)
    have hlow : (1/2 : ℚ) ≤
        min ((eos_risk_factors gw gd t r gbs abx exam).foldl (· * ·) (1/2)) 50 :=
      le_min h1 (by norm_num)
    have hhigh :
        min ((eos_risk_factors gw gd t r gbs abx exam).foldl (· * ·) (1/2)) 50 ≤ 50 :=
      min_le_right _ _
    unfold calculate_eos_risk
    constructor
    · calc (1/2 : ℚ) = round2 (1/2 : ℚ) := by norm_num [round2, round_eq]
        _ ≤ _ := round2_mono hlow
    · calc round2 (min ((eos_risk_factors gw gd t r gbs abx exam).foldl (· * ·) (1/2)) 50)
          ≤ round2 (50 : ℚ) := round2_mono hhigh
        _ = 50 := by norm_num [round2, round_eq]
  · intro s h
    unfold categorize_eos_status
    rw [if_pos h]

/-- Witness for C7: a concrete abnormal exam yields HIGH_RISK. -/
theorem eos_risk_bounded_and_abnormal_overrides_witness :
    categorize_eos_status (calculate_eos_risk 40 0 37 5 "negative" "none" "Abnormal")
      "Abnormal" = "HIGH_RISK" :=
  (eos_risk_bounded_and_abnormal_overrides 40 0 37 5 "negative" "none" "Abnormal").2
    (calculate_eos_risk 40 0 37 5 "negative" "none" "Abnormal") (by decide)

/-- Concrete two-row window whose channel values are 0 and 2. -/
def window2 : List Row := [fun _ => 0, fun _ => 2]

/-- Concrete two-row window with all channel values equal to 5. -/
def windowEq : List Row := [fun _ => 5, fun _ => 5]

lemma npVariance_allEq {xs : List ℚ} (h : ∀ x ∈ xs, ∀ y ∈ xs, x = y) :
    npVariance xs = 0 := by
  cases xs with
  | nil => simp [npVariance]
  | cons a t =>
    have hall : ∀ x ∈ (a :: t), x = a := fun x hx => h x hx a (by simp)
    have hrep : (a :: t) = List.replicate (a :: t).length a :=
      List.eq_replicate_of_mem hall
    rw [hrep]
    have hn : ((a :: t).length : ℚ) ≠ 0 := by
      have h0 : (0 : ℚ) < ((a :: t).length : ℚ) := by
        exact_mod_cast Nat.succ_pos t.length
      exact ne_of_gt h0
    unfold npVariance npMean
    rw [List.sum_replicate, List.length_replicate]
    have hmean : ((a :: t).length : ℕ) • a / ((a :: t).length : ℚ) = a := by
      rw [nsmul_eq_mul]
      field_simp
    rw [hmean]
    simp

/-- C4 counterexample: on the two-sample window with hr values 0 and 2,
get_live_statistics returns the population standard deviation 1, not the
sample standard deviation sqrt 2 the claim asserts. -/
theorem stddev_not_sample_counterexample :
    get_live_statistics window2 Channel.hr ≠ sampleStddev (column Channel.hr window2) := by
  have hcol : column Channel.hr window2 = [0, 2] := rfl
  have hvar : npVariance [0, 2] = 1 := by
    norm_num [npVariance, npMean]
  have hsvar : sampleVariance [0, 2] = 2 := by
    norm_num [sampleVariance, npMean]
  have hlive : get_live_statistics window2 Channel.hr = 1 := by
    unfold get_live_statistics
    rw [if_neg (by norm_num [window2]), hcol, hvar, if_neg (by norm_num)]
    unfold npStd
    rw [hvar]
    norm_num
  have hsamp : sampleStddev (column Channel.hr window2) = Real.sqrt 2 := by
    unfold sampleStddev
    rw [hcol, hsvar]
    norm_num
  rw [hlive, hsamp]
  intro h
  have h2 : (Real.sqrt 2) ^ 2 = 2 := Real.sq_sqrt (by norm_num)
  rw [← h] at h2
  norm_num at h2

/-- C4 (amended): with fewer than 2 samples stddev returns exactly the
channel's configured default; with 2 or more samples it returns the
population standard deviation (numpy's np.std, normalized by N) of the
window, except that a zero standard deviation is replaced by the default;
the returned value is always strictly positive (never zero, never NaN). -/
theorem stddev_default_or_population :
    ∀ (rows : List Row) (c : Channel),
      (rows.length < 2 → get_live_statistics rows c = (defaultSD c : ℝ)) ∧
      (2 ≤ rows.length →
        (npVariance (column c rows) = 0 ∧
          get_live_statistics rows c = (defaultSD c : ℝ)) ∨
        (npVariance (column c rows) ≠ 0 ∧
          get_live_statistics rows c = npStd (column c rows))) ∧
      0 < get_live_statistics rows c := by
  intro rows c
  refine ⟨?_, ?_, get_live_statistics_pos rows c⟩
  · intro h
    unfold get_live_statistics
    rw [if_pos h]
  · intro h
    by_cases hv : npVariance (column c rows) = 0
    · left
      refine ⟨hv, ?_⟩
      unfold get_live_statistics
      rw [if_neg (by omega), if_pos hv]
    · right
      refine ⟨hv, ?_⟩
      unfold get_live_statistics
      rw [if_neg (by omega), if_neg hv]

/-- Witness for C4: the empty window yields the temperature default 0.5,
and the 0/2 window has nonzero variance so np.std is returned. -/
theorem stddev_default_or_population_witness :
    get_live_statistics ([] : List Row) Channel.temp = ((1 : ℚ)/2 : ℝ) ∧
    ((npVariance (column Channel.hr window2) = 0 ∧
        get_live_statistics window2 Channel.hr = (defaultSD Channel.hr : ℝ)) ∨
      (npVariance (column Channel.hr window2) ≠ 0 ∧
        get_live_statistics window2 Channel.hr = npStd (column Channel.hr window2))) := by
  constructor
  · have := (stddev_default_or_population ([] : List Row) Channel.temp).1 (by norm_num)
    simpa [defaultSD] using this
  · exact (stddev_default_or_population window2 Channel.hr).2.1 (by norm_num [window2])

/-- C10: the per-channel division is always guarded: a window of 2 or more
equal samples (population standard deviation exactly 0) yields the
configured default, and the sigma used by the risk computation is never
zero. -/
theorem risk_division_guarded :
    ∀ (rows : List Row) (c : Channel),
      (2 ≤ rows.length → (∀ x ∈ column c rows, ∀ y ∈ column c rows, x = y) →
        get_live_statistics rows c = (defaultSD c : ℝ)) ∧
      get_live_statistics rows c ≠ 0 := by
  intro rows c
  constructor
  · intro hlen hall
    have hv : npVariance (column c rows) = 0 := npVariance_allEq hall
    unfold get_live_statistics
    rw [if_neg (by omega), if_pos hv]
  · exact ne_of_gt (get_live_statistics_pos rows c)

/-- Witness for C10: the all-equal window yields the hr default 15,
which is nonzero. -/
theorem risk_division_guarded_witness :
    get_live_statistics windowEq Channel.hr = ((15 : ℚ) : ℝ) ∧
    get_live_statistics windowEq Channel.hr ≠ 0 := by
  constructor
  · have hall : ∀ x ∈ column Channel.hr windowEq, ∀ y ∈ column Channel.hr windowEq, x = y := by
      intro x hx y hy
      simp [column, windowEq] at hx hy
      rw [hx, hy]
    have := (risk_division_guarded windowEq Channel.hr).1 (by norm_num [windowEq]) hall
    simpa [defaultSD] using this
  · exact (risk_division_guarded windowEq Channel.hr).2

/-- C5: the deviation risk score equals the spec formula
Sigma_channel W (|value - mu| / sigma)^P rounded to 2 decimals with sigma
taken from the live statistics, and the severity band is CRITICAL above 20,
WARNING above 10 up to 20, OK otherwise. -/
theorem risk_formula_and_bands :
    (∀ (rows : List Row) (v : Row),
      calculate_risk_score rows v = spec_deviation_risk (get_live_statistics rows) v) ∧
    (∀ s : ℝ,
      (20 < s → riskStatus s = "CRITICAL") ∧
      (10 < s ∧ s ≤ 20 → riskStatus s = "WARNING") ∧
      (s ≤ 10 → riskStatus s = "OK")) := by
  constructor
  · intro rows v
    unfold calculate_risk_score spec_deviation_risk
    rw [channelTotal_eq_sum]
  · intro s
    refine ⟨?_, ?_, ?_⟩
    · intro h
      unfold riskStatus
      rw [if_pos h]
    · intro ⟨h1, h2⟩
      unfold riskStatus
      rw [if_neg (by linarith), if_pos h1]
    · intro h
      unfold riskStatus
      rw [if_neg (by linarith), if_neg (by linarith)]

/-- Witness for C5: the three severity bands at concrete scores. -/
theorem risk_formula_and_bands_witness :
    riskStatus 25 = "CRITICAL" ∧ riskStatus 15 = "WARNING" ∧ riskStatus 5 = "OK" :=
  ⟨(risk_formula_and_bands.2 25).1 (by norm_num),
   (risk_formula_and_bands.2 15).2.1 ⟨by norm_num, by norm_num⟩,
   (risk_formula_and_bands.2 5).2.2 (by norm_num)⟩

/-- C6: holding every other channel fixed (and the standard deviations,
which are determined by the fixed window and are always positive), the risk
score is monotonically non-decreasing in one channel's absolute deviation
from its target mean. -/
theorem risk_monotone_in_deviation :
    ∀ (rows : List Row) (v1 v2 : Row) (c : Channel),
      (∀ d : Channel, d ≠ c → v1 d = v2 d) →
      |v1 c - riskMu c| ≤ |v2 c - riskMu c| →
      calculate_risk_score rows v1 ≤ calculate_risk_score rows v2 := by
  intro rows v1 v2 c hoth hc
  unfold calculate_risk_score
  apply round2_mono
  have hterm : ∀ d : Channel,
      (riskWeight d : ℝ) * (|(v1 d : ℝ) - (riskMu d : ℝ)| / get_live_statistics rows d) ^ riskPower d ≤
      (riskWeight d : ℝ) * (|(v2 d : ℝ) - (riskMu d : ℝ)| / get_live_statistics rows d) ^ riskPower d := by
    intro d
    by_cases hdc : d = c
    · subst hdc
      have hsd := get_live_statistics_pos rows d
      have habs : |(v1 d : ℝ) - (riskMu d : ℝ)| ≤ |(v2 d : ℝ) - (riskMu d : ℝ)| := by
        exact_mod_cast hc
      have hw : (0 : ℝ) ≤ (riskWeight d : ℝ) := by
        cases d <;> norm_num [riskWeight]
      apply mul_le_mul_of_nonneg_left _ hw
      apply pow_le_pow_left (div_nonneg (abs_nonneg _) hsd.le)
      exact (div_le_div_right hsd).mpr habs
    · rw [hoth d hdc]
  unfold channelTotal
  exact add_le_add (add_le_add (add_le_add (add_le_add
    (hterm .hr) (hterm .spo2)) (hterm .rr)) (hterm .temp)) (hterm .map)

/-- Measurement vector sitting exactly at the target means. -/
def atBaseline : Row := fun c => riskMu c

/-- Measurement vector one unit above the heart-rate mean. -/
def hrAboveBaseline : Row := fun c =>
  if c = Channel.hr then riskMu c + 1 else riskMu c

/-- Witness for C6: raising only the heart-rate deviation from 0 to 1 does
not decrease the score over the empty window. -/
theorem risk_monotone_in_deviation_witness :
    calculate_risk_score [] atBaseline ≤ calculate_risk_score [] hrAboveBaseline :=
  risk_monotone_in_deviation [] atBaseline hrAboveBaseline Channel.hr
    (fun d hd => by simp [atBaseline, hrAboveBaseline, hd])
    (by simp [atBaseline, hrAboveBaseline])

/-- C8 counterexample: at the same elapsed time in the same deteriorating
episode, two ticks whose np.random.choice draws differ produce different
temperature targets: the fever-versus-hypothermia pattern is decided by the
per-tick draw, not by a choice stored at state entry. -/
theorem temp_pattern_depends_on_tick_draw :
    tickTargets SimState.deteriorating termRanges 10 (fun _ => 0) true Channel.temp ≠
    tickTargets SimState.deteriorating termRanges 10 (fun _ => 0) false Channel.temp := by
  simp only [tickTargets, applySepsisProgression, termRanges, progression]
  norm_num

/-- C8 (amended): the fever-versus-hypothermia pattern is re-rolled by
np.random.choice on every tick of a deteriorating or septic episode (the
generator state stores no pattern choice): whenever the range is
non-degenerate the tick's temperature target genuinely depends on that
tick's own draw. -/
theorem temp_pattern_rerolled_each_tick :
    ∀ (r : VitalRanges) (m : ℚ), 0 ≤ m → r.temp_min ≤ r.temp_max →
      ∀ (draws : Row),
        tickTargets SimState.deteriorating r m draws true Channel.temp ≠
        tickTargets SimState.deteriorating r m draws false Channel.temp := by
  intro r m hm hr draws
  have hp := progression_nonneg hm
  simp only [tickTargets, applySepsisProgression]
  intro h
  have : r.temp_max + 3/2 + progression m = r.temp_min - 1 - progression m := h
  linarith

/-- Witness for C8 (amended): the term ranges at minute 10. -/
theorem temp_pattern_rerolled_each_tick_witness :
    tickTargets SimState.deteriorating termRanges 10 (fun _ => 1) true Channel.temp ≠
    tickTargets SimState.deteriorating termRanges 10 (fun _ => 1) false Channel.temp :=
  temp_pattern_rerolled_each_tick termRanges 10 (by norm_num)
    (by norm_num [termRanges]) (fun _ => 1)

/-- A concrete PENDING alert used by the lifecycle witnesses. -/
def pendingAlert : Alert :=
  { alert_id := 0, baby_id := "B001", timestamp := 0,
    model_risk_score := 4/5, onset_window_hrs := 6,
    alert_status := AlertStatus.pendingDoctorAction }

/-- A concrete ACTION_TAKEN alert (acted at hour 0). -/
def actedAlert : Alert :=
  { alert_id := 0, baby_id := "B001", timestamp := 0,
    model_risk_score := 4/5, onset_window_hrs := 6,
    alert_status := AlertStatus.actionTaken,
    doctor_id := some "D1", doctor_action := some "OBSERVATION",
    action_timestamp := some 0 }

/-- A concrete DISMISSED alert (dismissed at hour 0 for 1 hour). -/
def dismissedAlert : Alert :=
  { alert_id := 0, baby_id := "B001", timestamp := 0,
    model_risk_score := 4/5, onset_window_hrs := 6,
    alert_status := AlertStatus.dismissed,
    doctor_id := some "D1", doctor_action := some "DISMISS",
    action_timestamp := some 0, dismiss_duration := some 1 }

/-- A concrete CLOSED alert (outcome already recorded at hour 1). -/
def closedAlert : Alert :=
  { alert_id := 0, baby_id := "B001", timestamp := 0,
    model_risk_score := 9/10, onset_window_hrs := 6,
    alert_status := AlertStatus.closed,
    sepsis_confirmed := some true, outcome_timestamp := some 1,
    reward_signal := some 1, model_status := some "SUCCESS" }

/-- C1 counterexample: two threshold-triggered predict_sepsis calls for the
same entity leave two alerts in a non-terminal (PENDING) status at once, so
the at-most-one-non-terminal-alert invariant does not hold across the
manual operations. -/
theorem two_open_alerts_reachable :
    (openAlerts "B001"
      (predict_sepsis (9/10) "B001" (predict_sepsis (9/10) "B001" []).1).1).length = 2 := by
  have h1 : ((3 : ℚ)/4 < 9/10) := by norm_num
  simp only [predict_sepsis, if_pos h1]
  rfl

/-- C1 (amended): a single tick evaluation never creates an alert for an
entity whose most recent non-CLOSED alert is PENDING, or DISMISSED within
its dismiss window, or ACTED within the 4-hour re-escalation window; the
global at-most-one-non-terminal invariant fails, because re-alerts and
predict_sepsis insert new rows while older non-terminal rows remain. -/
theorem tick_no_create_when_covered :
    ∀ (now severity : ℚ) (mrn : String) (alerts : List Alert) (a : Alert),
      mostRecent (openAlerts mrn alerts) = some a →
      (a.alert_status = AlertStatus.pendingDoctorAction ∨
        (a.alert_status = AlertStatus.dismissed ∧
          ∀ t, a.action_timestamp = some t → now ≤ t + silenceHours a.dismiss_duration) ∨
        (a.alert_status = AlertStatus.actionTaken ∧
          ∀ t, a.action_timestamp = some t → now ≤ t + 4)) →
      evaluateTick now severity mrn alerts = alerts := by
  intro now severity mrn alerts a hmr hcov
  rcases hcov with hp | ⟨hd, hdt⟩ | ⟨ha, hat⟩
  · simp only [evaluateTick, hmr, hp]
    split <;> rfl
  · cases hts : a.action_timestamp with
    | none =>
      simp only [evaluateTick, hmr, hd, hts]
      split <;> rfl
    | some t =>
      simp only [evaluateTick, hmr, hd, hts]
      rw [if_neg (not_lt.mpr (hdt t hts))]
      split <;> rfl
  · cases hts : a.action_timestamp with
    | none =>
      simp only [evaluateTick, hmr, ha, hts]
      split <;> rfl
    | some t =>
      simp only [evaluateTick, hmr, ha, hts]
      rw [if_neg (not_lt.mpr (hat t hts))]
      split <;> rfl

/-- Witness for C1 (amended): an open PENDING alert suppresses the tick. -/
theorem tick_no_create_when_covered_witness :
    evaluateTick 1 8 "B001" [pendingAlert] = [pendingAlert] :=
  tick_no_create_when_covered 1 8 "B001" [pendingAlert] pendingAlert
    rfl (Or.inl rfl)

/-- C2 counterexample: with an ACTED alert past the 4-hour re-escalation
window, the tick inserts a second row (length 2) and leaves the existing
alert in ACTION_TAKEN status, instead of transitioning it back to PENDING
without a new row. -/
theorem acted_realert_inserts_row_counterexample :
    (evaluateTick 5 8 "B001" [actedAlert]).length = 2 ∧
    (evaluateTick 5 8 "B001" [actedAlert]).head? = some actedAlert := by
  have hmr : mostRecent (openAlerts "B001" [actedAlert]) = some actedAlert := rfl
  have hst : actedAlert.alert_status = AlertStatus.actionTaken := rfl
  have hts : actedAlert.action_timestamp = some (0 : ℚ) := rfl
  have hev : evaluateTick 5 8 "B001" [actedAlert] =
      [actedAlert] ++ [newTickAlert [actedAlert] 5 8 "B001"] := by
    simp only [evaluateTick, hmr, hst, hts]
    rw [if_neg (by norm_num), if_pos (by norm_num)]
  rw [hev]
  exact ⟨rfl, rfl⟩

/-- C2 (amended): when the most recent non-CLOSED alert of an entity is in
ACTED status with the current time strictly past actedAt plus the 4-hour
re-escalation window and severity at threshold, the tick appends a fresh
PENDING alert row and leaves every existing row, including the ACTED alert
with its risk snapshot and action history, unchanged; no transition back to
PENDING occurs. -/
theorem acted_realert_creates_new_row :
    ∀ (now severity : ℚ) (mrn : String) (alerts : List Alert) (a : Alert) (t : ℚ),
      15/2 ≤ severity →
      mostRecent (openAlerts mrn alerts) = some a →
      a.alert_status = AlertStatus.actionTaken →
      a.action_timestamp = some t →
      t + 4 < now →
      evaluateTick now severity mrn alerts =
        alerts ++ [newTickAlert alerts now severity mrn] ∧
      (newTickAlert alerts now severity mrn).alert_status =
        AlertStatus.pendingDoctorAction := by
  intro now severity mrn alerts a t hsev hmr hst hts hlate
  refine ⟨?_, rfl⟩
  simp only [evaluateTick, hmr, hst, hts]
  rw [if_neg (not_lt.mpr hsev), if_pos hlate]

/-- Witness for C2 (amended): the concrete ACTED alert at hour 5. -/
theorem acted_realert_creates_new_row_witness :
    evaluateTick 5 8 "B001" [actedAlert] =
      [actedAlert] ++ [newTickAlert [actedAlert] 5 8 "B001"] ∧
    (newTickAlert [actedAlert] 5 8 "B001").alert_status =
      AlertStatus.pendingDoctorAction :=
  acted_realert_creates_new_row 5 8 "B001" [actedAlert] actedAlert 0
    (by norm_num) rfl rfl rfl (by norm_num)

/-- C3 counterexample: log_outcome on an already-CLOSED alert does not fail;
it succeeds and overwrites the outcome fields of the closed record. -/
theorem outcome_on_closed_succeeds_counterexample :
    log_outcome 2 0 false [closedAlert] =
      Except.ok [{ closedAlert with
        sepsis_confirmed := some false, outcome_timestamp := some 2,
        reward_signal := some (-1), model_status := some "FAILURE" }] := by
  have hf : findAlert 0 [closedAlert] = some closedAlert := rfl
  have hdec : decide ((3 : ℚ)/4 < 9/10) = true := decide_eq_true (by norm_num)
  simp only [log_outcome, hf, updateAlert, List.map, closedAlert]
  norm_num [hdec]
  rfl

/-- C3 (amended): recordAction on a CLOSED alert fails with the typed
invalid-transition error (leaving the table unchanged), and recordOutcome
with an unknown alert id fails with the typed not-found error; recordOutcome
on a CLOSED alert, however, does not fail: it succeeds and overwrites the
outcome fields, the status staying CLOSED. -/
theorem closed_alert_error_behaviour :
    (∀ (now : ℚ) (id : ℕ) (did act : String) (det : Option String)
        (dd : Option ℚ) (alerts : List Alert) (a : Alert),
      findAlert id alerts = some a → a.alert_status = AlertStatus.closed →
      log_doctor_action now id did act det dd alerts =
        Except.error HilError.invalidTransition) ∧
    (∀ (now : ℚ) (id : ℕ) (b : Bool) (alerts : List Alert),
      findAlert id alerts = none →
      log_outcome now id b alerts = Except.error HilError.alertNotFound) ∧
    (∀ (now : ℚ) (id : ℕ) (b : Bool) (alerts : List Alert) (a : Alert),
      findAlert id alerts = some a → a.alert_status = AlertStatus.closed →
      ∃ l, log_outcome now id b alerts = Except.ok l) := by
  refine ⟨?_, ?_, ?_⟩
  · intro now id did act det dd alerts a hf hst
    have hcond : ¬(a.alert_status = AlertStatus.pendingDoctorAction ∨
        a.alert_status = AlertStatus.actionTaken) := by
      rw [hst]
      rintro (h | h) <;> cases h
    simp only [log_doctor_action, hf]
    rw [if_neg hcond]
  · intro now id b alerts hf
    simp only [log_outcome, hf]
  · intro now id b alerts a hf hst
    simp only [log_outcome, hf]
    exact ⟨_, rfl⟩

/-- Witness for C3 (amended): the concrete CLOSED alert and an empty table. -/
theorem closed_alert_error_behaviour_witness :
    log_doctor_action 2 0 "D1" "OBSERVATION" none none [closedAlert] =
      Except.error HilError.invalidTransition ∧
    log_outcome 1 5 true [] = Except.error HilError.alertNotFound ∧
    ∃ l, log_outcome 2 0 true [closedAlert] = Except.ok l :=
  ⟨closed_alert_error_behaviour.1 2 0 "D1" "OBSERVATION" none none
      [closedAlert] closedAlert rfl rfl,
   closed_alert_error_behaviour.2.1 1 5 true [] rfl,
   closed_alert_error_behaviour.2.2 2 0 true [closedAlert] closedAlert
      rfl rfl⟩

/-- C9 counterexample: at exactly dismissedAt + dismissDuration (hour 1,
after a dismissal at hour 0 for 1 hour) with severity at threshold, the
tick creates no new alert — re-opening happens only strictly after that
instant, not at it. -/
theorem dismiss_boundary_no_reopen_counterexample :
    evaluateTick 1 8 "B001" [dismissedAlert] = [dismissedAlert] := by
  have hmr : mostRecent (openAlerts "B001" [dismissedAlert]) = some dismissedAlert := rfl
  have hst : dismissedAlert.alert_status = AlertStatus.dismissed := rfl
  have hts : dismissedAlert.action_timestamp = some (0 : ℚ) := rfl
  have hdd : dismissedAlert.dismiss_duration = some (1 : ℚ) := rfl
  have hcond : ¬ ((1 : ℚ) > 0 + silenceHours (some 1)) := by
    norm_num [silenceHours]
  simp only [evaluateTick, hmr, hst, hts, hdd]
  rw [if_neg hcond]
  split <;> rfl

/-- C9 (amended): while the entity's most recent non-CLOSED alert is
DISMISSED, a tick evaluation at any time up to and including dismissedAt +
dismissDuration creates no new alert; a tick evaluation strictly after that
instant with severity still at threshold appends a new PENDING alert. -/
theorem dismissed_window_blocks_then_reopens :
    ∀ (now severity : ℚ) (mrn : String) (alerts : List Alert) (a : Alert) (t : ℚ),
      mostRecent (openAlerts mrn alerts) = some a →
      a.alert_status = AlertStatus.dismissed →
      a.action_timestamp = some t →
      ((now ≤ t + silenceHours a.dismiss_duration →
          evaluateTick now severity mrn alerts = alerts) ∧
        (t + silenceHours a.dismiss_duration < now → 15/2 ≤ severity →
          evaluateTick now severity mrn alerts =
            alerts ++ [newTickAlert alerts now severity mrn] ∧
          (newTickAlert alerts now severity mrn).alert_status =
            AlertStatus.pendingDoctorAction)) := by
  intro now severity mrn alerts a t hmr hst hts
  constructor
  · intro hin
    simp only [evaluateTick, hmr, hst, hts]
    rw [if_neg (not_lt.mpr hin)]
    split <;> rfl
  · intro hout hsev
    refine ⟨?_, rfl⟩
    simp only [evaluateTick, hmr, hst, hts]
    rw [if_neg (not_lt.mpr hsev), if_pos hout]

/-- Witness for C9 (amended): the concrete DISMISSED alert, blocked at hour
0.5 and re-opened at hour 2. -/
theorem dismissed_window_blocks_then_reopens_witness :
    evaluateTick (1/2) 8 "B001" [dismissedAlert] = [dismissedAlert] ∧
    evaluateTick 2 8 "B001" [dismissedAlert] =
      [dismissedAlert] ++ [newTickAlert [dismissedAlert] 2 8 "B001"] :=
  ⟨(dismissed_window_blocks_then_reopens (1/2) 8 "B001" [dismissedAlert]
      dismissedAlert 0 rfl rfl rfl).1 (by norm_num [dismissedAlert, silenceHours]),
   ((dismissed_window_blocks_then_reopens 2 8 "B001" [dismissedAlert]
      dismissedAlert 0 rfl rfl rfl).2 (by norm_num [dismissedAlert, silenceHours])
      (by norm_num)).1⟩

end Neovance
